import Mathlib

/-!
Shallow embedding of `blog-backend/controllers/authController.js`: the
`register`, `login`, `getMe` and `updateProfile` request handlers.

External collaborators (the Mongoose `User` model, the Cloudinary SDK,
bcrypt, JWT) are modelled as oracles passed in as parameters:

* the result of `User.findOne` / `User.findById` is an `Option User`;
* the Cloudinary adapter is a `MediaStore` whose upload and delete may fail;
* `user.matchPassword` is a boolean oracle;
* `generateToken` is a function from user ids to token strings.

Each handler yields the `ApiResponse` it sends (or the error it forwards to
`next`), the ordered list of media-store calls it made, and the record it
created or saved, if any.  JavaScript string truthiness (`undefined` and
`""` are falsy) is modelled by `truthy` on `Option String`; request-body
fields that may be absent are `Option String`.  JavaScript string methods
with one-character separators (`split`, `startsWith`) are re-implemented
structurally so that concrete runs evaluate inside the kernel.
-/

namespace AuthController

/-- An uploaded file's binary content (`req.file.buffer`), kept opaque. -/
structure Buffer where
  bytes : Nat
deriving DecidableEq

/-- A user document as stored by the `User` model. -/
structure User where
  _id : Nat
  name : String
  email : String
  password : String
  bio : String
  avatar : String
  createdAt : Nat
deriving DecidableEq

/-- JavaScript truthiness of a possibly-absent string value: an absent key
(`undefined`) and the empty string are falsy, every other string is truthy. -/
def truthy : Option String → Bool
  | none => false
  | some s => s != ""

/-- One call made to the Cloudinary adapter, with its arguments. -/
inductive MediaCall where
  | upload (buf : Buffer) (folder : String)
  | delete (publicId : String)
deriving DecidableEq

/-- The Cloudinary adapter as an oracle: `uploadResult buf folder` is the
`url` field of a successful `uploadToCloudinary(buf, folder)`, or the error
it throws; `deleteResult publicId` likewise for `deleteFromCloudinary`. -/
structure MediaStore where
  uploadResult : Buffer → String → Except String String
  deleteResult : String → Except String Unit

/-- What a handler sends back: `ApiResponse.success(res, status, message,
data)` with `data` as the ordered key/value pairs of the object literal
(values rendered as strings), `ApiResponse.error(res, status, message)`, or
an exception forwarded to the centralized error handler via `next(error)`. -/
inductive ApiResp where
  | success (status : Nat) (message : String) (data : List (String × String))
  | error (status : Nat) (message : String)
  | nextError (err : String)
deriving DecidableEq

/-- Whether the response is a success envelope. -/
def ApiResp.isSuccess : ApiResp → Bool
  | .success _ _ _ => true
  | _ => false

/-- Whether the response is an `ApiResponse.error` envelope. -/
def ApiResp.isApiError : ApiResp → Bool
  | .error _ _ => true
  | _ => false

/-- Whether the handler forwarded a thrown failure to `next(error)`. -/
def ApiResp.isNextError : ApiResp → Bool
  | .nextError _ => true
  | _ => false

/-- The keys of the `data` object of a success response (`[]` otherwise). -/
def ApiResp.dataKeys : ApiResp → List String
  | .success _ _ d => d.map Prod.fst
  | _ => []

/-- Splitting a character list at every occurrence of `c` (JavaScript
`String.prototype.split` with a one-character separator). -/
def splitOnChar (c : Char) : List Char → List (List Char)
  | [] => [[]]
  | x :: xs =>
    if x = c then [] :: splitOnChar c xs
    else
      match splitOnChar c xs with
      | [] => [[x]]
      | y :: ys => (x :: y) :: ys

/-- JavaScript `s.split(sep)` for a one-character separator. -/
def jsSplit (s : String) (sep : Char) : List String :=
  (splitOnChar sep s.data).map (fun cs => String.mk cs)

/-- `pre` is an initial run of `s`, compared character by character. -/
def leadsWith : List Char → List Char → Bool
  | [], _ => true
  | _ :: _, [] => false
  | a :: as, b :: bs => a = b && leadsWith as bs

/-- JavaScript `s.startsWith(pre)`. -/
def jsStartsWith (s pre : String) : Bool :=
  leadsWith pre.data s.data

/-- JavaScript `arr.slice(-2)`: the last two elements, or the whole array
when it has fewer than two. -/
def lastTwo (l : List String) : List String :=
  l.drop (l.length - 2)

/-- The public id `updateProfile` derives from a stored avatar value before
deleting it: `avatar.split("/").slice(-2).join("/").split(".")[0]`. -/
def deriveOldPublicId (avatar : String) : String :=
  (jsSplit (String.intercalate "/" (lastTwo (jsSplit avatar '/'))) '.').headD ""

/-- The fields `register` reads from `req.body`; an absent key is `none`. -/
structure RegisterBody where
  name : Option String
  email : Option String
  password : Option String
  bio : Option String
deriving DecidableEq

/-- Everything observable about one `register` call: the response sent, the
Cloudinary calls made (in order), and the record `User.create` persisted. -/
structure RegisterOutcome where
  resp : ApiResp
  calls : List MediaCall
  created : Option User
deriving DecidableEq

/-- The `User.create` and respond tail of `register`.  `createOk` tells
whether `User.create` returned a document (when it does not throw it always
does; the dead `else` branch of the handler is kept for fidelity); `newId`
and `now` are the id and timestamp the database assigns. -/
def registerCreate (body : RegisterBody) (avatarUrl : String)
    (calls : List MediaCall) (createOk : Bool) (newId now : Nat)
    (generateToken : Nat → String) : RegisterOutcome :=
  if createOk then
    let user : User :=
      { _id := newId
        name := body.name.getD ""
        email := body.email.getD ""
        password := body.password.getD ""
        bio := if truthy body.bio then body.bio.getD "" else ""
        avatar := avatarUrl
        createdAt := now }
    { resp := .success 201 "User registered successfully"
        [("_id", toString user._id), ("name", user.name),
         ("email", user.email), ("bio", user.bio), ("avatar", user.avatar),
         ("token", generateToken user._id)]
      calls := calls
      created := some user }
  else
    { resp := .error 400 "Invalid user data", calls := calls, created := none }

/-- `register` (POST /api/auth/register).  `userExists` is the result of
`User.findOne({ email })`. -/
def register (body : RegisterBody) (file : Option Buffer)
    (userExists : Option User) (ms : MediaStore) (createOk : Bool)
    (newId now : Nat) (generateToken : Nat → String) : RegisterOutcome :=
  if !truthy body.name || !truthy body.email || !truthy body.password then
    { resp := .error 400 "Please provide all required fields"
      calls := []
      created := none }
  else if userExists.isSome then
    { resp := .error 400 "User already exists", calls := [], created := none }
  else
    match file with
    | none => registerCreate body "" [] createOk newId now generateToken
    | some f =>
      match ms.uploadResult f "avatars" with
      | .error e =>
        { resp := .nextError e, calls := [.upload f "avatars"], created := none }
      | .ok url =>
        registerCreate body url [.upload f "avatars"] createOk newId now
          generateToken

/-- The fields `login` reads from `req.body`. -/
structure LoginBody where
  email : Option String
  password : Option String
deriving DecidableEq

/-- `login` (POST /api/auth/login).  `found` is the result of
`User.findOne({ email }).select("+password")`, so its `password` field is
the stored hash; `matchPassword u p` is the bcrypt comparison
`u.matchPassword(p)`. -/
def login (body : LoginBody) (found : Option User)
    (matchPassword : User → String → Bool)
    (generateToken : Nat → String) : ApiResp :=
  if !truthy body.email || !truthy body.password then
    .error 400 "Please provide email and password"
  else
    match found with
    | some user =>
      if matchPassword user (body.password.getD "") then
        .success 200 "Login successful"
          [("_id", toString user._id), ("name", user.name),
           ("email", user.email), ("bio", user.bio), ("avatar", user.avatar),
           ("token", generateToken user._id)]
      else .error 401 "Invalid email or password"
    | none => .error 401 "Invalid email or password"

/-- `getMe` (GET /api/auth/me).  `found` is `User.findById(req.user._id)`.
When it is `none` (`null`), the handler's untested field access `user._id`
in the response literal throws a `TypeError`, which the `catch` forwards to
`next(error)` (centralized handler, default 500). -/
def getMe (found : Option User) : ApiResp :=
  match found with
  | some user =>
    .success 200 "User profile retrieved"
      [("_id", toString user._id), ("name", user.name),
       ("email", user.email), ("bio", user.bio), ("avatar", user.avatar),
       ("createdAt", toString user.createdAt)]
  | none =>
    .nextError "TypeError: Cannot read properties of null (reading _id)"

/-- The fields `updateProfile` reads from `req.body`. -/
structure UpdateBody where
  name : Option String
  bio : Option String
  password : Option String
deriving DecidableEq

/-- Everything observable about one `updateProfile` call: the response, the
Cloudinary calls (in order), and the document passed to `user.save()`
(`none` when `save` never ran). -/
structure UpdateOutcome where
  resp : ApiResp
  calls : List MediaCall
  saved : Option User
deriving DecidableEq

/-- The success payload of `updateProfile` for the saved document. -/
def updateView (u : User) : List (String × String) :=
  [("_id", toString u._id), ("name", u.name), ("email", u.email),
   ("bio", u.bio), ("avatar", u.avatar)]

/-- `updateProfile` (PUT /api/auth/profile).  `found` is
`User.findById(req.user._id)`.  Mirrors the handler line by line: name and
bio are patched in memory; when a new file was sent, the old self-hosted
avatar is deleted best-effort (the `catch` around `deleteFromCloudinary`
ignores its result, so `ms.deleteResult` does not influence the outcome)
and the new file is uploaded; then the password is patched; only then does
the single `user.save()` run. -/
def updateProfile (found : Option User) (body : UpdateBody)
    (file : Option Buffer) (ms : MediaStore) : UpdateOutcome :=
  match found with
  | none => { resp := .error 404 "User not found", calls := [], saved := none }
  | some user0 =>
    let user1 : User :=
      { user0 with
        name := if truthy body.name then body.name.getD "" else user0.name
        bio := match body.bio with
          | some b => b
          | none => user0.bio }
    match file with
    | none =>
      let user2 : User :=
        if truthy body.password then
          { user1 with password := body.password.getD "" }
        else user1
      { resp := .success 200 "Profile updated successfully" (updateView user2)
        calls := []
        saved := some user2 }
    | some f =>
      let delCalls : List MediaCall :=
        if user1.avatar != "" && !jsStartsWith user1.avatar "http" then
          [.delete (deriveOldPublicId user1.avatar)]
        else []
      match ms.uploadResult f "avatars" with
      | .error e =>
        { resp := .nextError e
          calls := delCalls ++ [.upload f "avatars"]
          saved := none }
      | .ok url =>
        let user2 : User := { user1 with avatar := url }
        let user3 : User :=
          if truthy body.password then
            { user2 with password := body.password.getD "" }
          else user2
        { resp := .success 200 "Profile updated successfully" (updateView user3)
          calls := delCalls ++ [.upload f "avatars"]
          saved := some user3 }

/-- The identifier the specification describes for avatar cleanup: the
trailing two path segments of the stored value rejoined with "/", with the
file-extension suffix (the final "." and everything after it) stripped. -/
def specExtensionStrippedId (avatar : String) : String :=
  let joined := String.intercalate "/" (lastTwo (jsSplit avatar '/'))
  let parts := jsSplit joined '.'
  if parts.length ≤ 1 then joined else String.intercalate "." parts.dropLast

/-- The identifier as the code actually derives it, described directly: the
trailing two path segments rejoined with "/", truncated before the first "."
of the rejoined string (everything from the first dot on is dropped). -/
def firstDotPrefixId (avatar : String) : String :=
  (jsSplit (String.intercalate "/" (lastTwo (jsSplit avatar '/'))) '.').headD ""

/-- Sample file buffer for concrete instantiations. -/
def sampleBuffer : Buffer := ⟨7⟩

/-- Sample stored user whose avatar is self-hosted (no "http" prefix). -/
def sampleUser : User :=
  { _id := 1
    name := "Alice"
    email := "alice@example.com"
    password := "storedhash"
    bio := ""
    avatar := "uploads/avatars/pic123.png"
    createdAt := 0 }

/-- A media store whose upload always fails. -/
def msUploadFails : MediaStore :=
  { uploadResult := fun _ _ => .error "upload failed"
    deleteResult := fun _ => .ok () }

/-- A media store whose delete always fails but whose upload succeeds. -/
def msDeleteFails : MediaStore :=
  { uploadResult := fun _ _ => .ok "http://res.cloudinary.com/avatars/new1.png"
    deleteResult := fun _ => .error "delete failed" }

/-- A media store where both operations succeed. -/
def msOk : MediaStore :=
  { uploadResult := fun _ _ => .ok "http://res.cloudinary.com/avatars/new1.png"
    deleteResult := fun _ => .ok () }

/-- A user whose stored avatar contains an extra dot before the extension,
used to separate the code's identifier derivation from the spec's wording. -/
def userDotted : User :=
  { _id := 2
    name := "Bob"
    email := "bob@example.com"
    password := "h"
    bio := ""
    avatar := "avatars/pic.v2.png"
    createdAt := 0 }

/-- C1: if `updateProfile` is called with a new avatar file and the upload of
that file fails, the whole update aborts with the propagated upload error:
`save` never runs, so no field change (name, bio, password, avatar) is
persisted. -/
theorem updateProfile_upload_failure_aborts (user : User) (body : UpdateBody)
    (f : Buffer) (ms : MediaStore) (e : String)
    (h : ms.uploadResult f "avatars" = .error e) :
    (updateProfile (some user) body (some f) ms).resp = .nextError e ∧
    (updateProfile (some user) body (some f) ms).saved = none := by
  simp [updateProfile, h]

/-- C1 witness: the theorem at concrete inputs. -/
theorem updateProfile_upload_failure_aborts_witness :
    (updateProfile (some sampleUser) ⟨none, none, none⟩ (some sampleBuffer)
        msUploadFails).resp = .nextError "upload failed" ∧
    (updateProfile (some sampleUser) ⟨none, none, none⟩ (some sampleBuffer)
        msUploadFails).saved = none :=
  updateProfile_upload_failure_aborts sampleUser ⟨none, none, none⟩
    sampleBuffer msUploadFails "upload failed" rfl

/-- C2: with a new avatar file supplied, exactly one delete of the derived
public id precedes the upload when the existing avatar is non-empty and does
not start with "http"; otherwise no delete is made; in both cases exactly
one upload into the "avatars" folder is attempted. -/
theorem updateProfile_media_call_pattern (user : User) (body : UpdateBody)
    (f : Buffer) (ms : MediaStore) :
    (updateProfile (some user) body (some f) ms).calls =
      if user.avatar ≠ "" ∧ jsStartsWith user.avatar "http" = false then
        [MediaCall.delete (deriveOldPublicId user.avatar),
         MediaCall.upload f "avatars"]
      else [MediaCall.upload f "avatars"] := by
  cases hu : ms.uploadResult f "avatars" <;>
    by_cases h1 : user.avatar = "" <;>
      by_cases h2 : jsStartsWith user.avatar "http" = true <;>
        simp [updateProfile, hu, h1, h2]

/-- C3: a failing delete of the old self-hosted avatar is swallowed: with the
delete failing and the upload succeeding, `updateProfile` still succeeds and
persists the uploaded avatar URL, and its outcome is identical to the outcome
with a media store whose delete succeeds. -/
theorem updateProfile_delete_failure_swallowed (user : User) (body : UpdateBody)
    (f : Buffer) (ms : MediaStore) (err url : String)
    (_hself : user.avatar ≠ "" ∧ jsStartsWith user.avatar "http" = false)
    (hdel : ms.deleteResult (deriveOldPublicId user.avatar) = .error err)
    (hup : ms.uploadResult f "avatars" = .ok url) :
    (updateProfile (some user) body (some f) ms).resp.isSuccess = true ∧
    (∃ u, (updateProfile (some user) body (some f) ms).saved = some u ∧
      u.avatar = url) ∧
    updateProfile (some user) body (some f) ms =
      updateProfile (some user) body (some f)
        { uploadResult := ms.uploadResult, deleteResult := fun _ => .ok () } := by
  refine ⟨?_, ?_, ?_⟩
  · by_cases hp : truthy body.password = true <;>
      simp [updateProfile, hup, hp, ApiResp.isSuccess]
  · by_cases hp : truthy body.password = true <;>
      simp [updateProfile, hup, hp]
  · obtain ⟨up, del⟩ := ms
    rfl

/-- C3 witness: the theorem at concrete inputs. -/
theorem updateProfile_delete_failure_swallowed_witness :
    (updateProfile (some sampleUser) ⟨none, none, none⟩ (some sampleBuffer)
        msDeleteFails).resp.isSuccess = true ∧
    (∃ u, (updateProfile (some sampleUser) ⟨none, none, none⟩
        (some sampleBuffer) msDeleteFails).saved = some u ∧
      u.avatar = "http://res.cloudinary.com/avatars/new1.png") ∧
    updateProfile (some sampleUser) ⟨none, none, none⟩ (some sampleBuffer)
        msDeleteFails =
      updateProfile (some sampleUser) ⟨none, none, none⟩ (some sampleBuffer)
        { uploadResult := msDeleteFails.uploadResult
          deleteResult := fun _ => .ok () } :=
  updateProfile_delete_failure_swallowed sampleUser ⟨none, none, none⟩
    sampleBuffer msDeleteFails "delete failed"
    "http://res.cloudinary.com/avatars/new1.png"
    (by refine ⟨by decide, by decide⟩) rfl rfl

/-- C4 counterexample: for the stored avatar "avatars/pic.v2.png" the delete
call receives "avatars/pic", not "avatars/pic.v2" — the trailing two
segments rejoined with the file-extension suffix stripped — because the code
truncates at the first dot, not the last. -/
theorem updateProfile_delete_id_not_extension_strip :
    (updateProfile (some userDotted) ⟨none, none, none⟩ (some sampleBuffer)
        msOk).calls =
      [MediaCall.delete "avatars/pic", MediaCall.upload sampleBuffer "avatars"] ∧
    specExtensionStrippedId "avatars/pic.v2.png" = "avatars/pic.v2" ∧
    ("avatars/pic" : String) ≠ "avatars/pic.v2" := by
  decide

/-- C4 (amended): when `updateProfile` deletes an old self-hosted avatar, the
identifier passed to the delete call is the trailing two path segments of the
stored avatar rejoined with "/", truncated before the first "." of the
rejoined string. -/
theorem updateProfile_delete_identifier (user : User) (body : UpdateBody)
    (f : Buffer) (ms : MediaStore)
    (h1 : user.avatar ≠ "") (h2 : jsStartsWith user.avatar "http" = false) :
    (updateProfile (some user) body (some f) ms).calls =
      [MediaCall.delete (firstDotPrefixId user.avatar),
       MediaCall.upload f "avatars"] := by
  have hd : deriveOldPublicId user.avatar = firstDotPrefixId user.avatar := rfl
  cases hu : ms.uploadResult f "avatars" <;>
    simp [updateProfile, hu, h1, h2, hd.symm]

/-- C4 witness: the amended theorem at concrete inputs. -/
theorem updateProfile_delete_identifier_witness :
    (updateProfile (some sampleUser) ⟨none, none, none⟩ (some sampleBuffer)
        msOk).calls =
      [MediaCall.delete (firstDotPrefixId sampleUser.avatar),
       MediaCall.upload sampleBuffer "avatars"] :=
  updateProfile_delete_identifier sampleUser ⟨none, none, none⟩ sampleBuffer
    msOk (by decide) (by decide)

/-- Characterization of the document `updateProfile` saves, in the shape the
code computes it. -/
theorem updateProfile_saved_eq (user : User) (body : UpdateBody)
    (file : Option Buffer) (ms : MediaStore) (u : User)
    (h : (updateProfile (some user) body file ms).saved = some u) :
    u.name = (if truthy body.name = true then body.name.getD "" else user.name) ∧
    u.bio = (match body.bio with
      | some b => b
      | none => user.bio) ∧
    u.password =
      (if truthy body.password = true then body.password.getD ""
       else user.password) := by
  cases file with
  | none =>
    by_cases hp : truthy body.password = true <;>
      · simp [updateProfile, hp] at h
        subst h
        simp [hp]
  | some f =>
    cases hu : ms.uploadResult f "avatars" with
    | error e => simp [updateProfile, hu] at h
    | ok url =>
      by_cases hp : truthy body.password = true <;>
        · simp [updateProfile, hu, hp] at h
          subst h
          simp [hp]

/-- C5: whatever `updateProfile` persists for an existing user obeys the
patch policy: name is replaced only by a non-empty supplied value, bio is
replaced exactly when the key is present (including the explicit empty
string), password is replaced only by a non-empty supplied value. -/
theorem updateProfile_patch_policy (user u : User) (body : UpdateBody)
    (file : Option Buffer) (ms : MediaStore)
    (h : (updateProfile (some user) body file ms).saved = some u) :
    u.name = (match body.name with
      | some n => if n = "" then user.name else n
      | none => user.name) ∧
    u.bio = (match body.bio with
      | some b => b
      | none => user.bio) ∧
    u.password = (match body.password with
      | some p => if p = "" then user.password else p
      | none => user.password) := by
  obtain ⟨h1, h2, h3⟩ := updateProfile_saved_eq user body file ms u h
  refine ⟨?_, h2, ?_⟩
  · rw [h1]
    cases body.name with
    | none => simp [truthy]
    | some n => by_cases hn : n = "" <;> simp [truthy, hn]
  · rw [h3]
    cases body.password with
    | none => simp [truthy]
    | some p => by_cases hq : p = "" <;> simp [truthy, hq]

/-- C5 witness: the theorem at concrete inputs (name supplied non-empty, bio
supplied as the explicit empty string, password supplied empty). -/
theorem updateProfile_patch_policy_witness :
    ({ sampleUser with name := "Zoe", bio := "" } : User).name =
      (match (some "Zoe" : Option String) with
        | some n => if n = "" then sampleUser.name else n
        | none => sampleUser.name) ∧
    ({ sampleUser with name := "Zoe", bio := "" } : User).bio =
      (match (some "" : Option String) with
        | some b => b
        | none => sampleUser.bio) ∧
    ({ sampleUser with name := "Zoe", bio := "" } : User).password =
      (match (some "" : Option String) with
        | some p => if p = "" then sampleUser.password else p
        | none => sampleUser.password) :=
  updateProfile_patch_policy sampleUser { sampleUser with name := "Zoe", bio := "" }
    ⟨some "Zoe", some "", some ""⟩ none msOk (by decide)

/-- C6: `register` with a missing name, email or password fails with the 400
validation error, creates no record and attempts no upload. -/
theorem register_missing_field_validation (body : RegisterBody)
    (file : Option Buffer) (userExists : Option User) (ms : MediaStore)
    (createOk : Bool) (newId now : Nat) (generateToken : Nat → String)
    (h : body.name = none ∨ body.email = none ∨ body.password = none) :
    register body file userExists ms createOk newId now generateToken =
      { resp := .error 400 "Please provide all required fields"
        calls := []
        created := none } := by
  rcases h with h | h | h <;> simp [register, truthy, h]

/-- C6 witness: the theorem at concrete inputs (password missing). -/
theorem register_missing_field_validation_witness :
    register ⟨some "Carol", some "carol@example.com", none, none⟩ none none
        msOk true 3 0 (fun _ => "tok") =
      { resp := .error 400 "Please provide all required fields"
        calls := []
        created := none } :=
  register_missing_field_validation ⟨some "Carol", some "carol@example.com",
    none, none⟩ none none msOk true 3 0 (fun _ => "tok") (Or.inr (Or.inr rfl))

/-- C7: `register` with an email that already belongs to a user (and all
required fields present) fails with the 400 conflict error, creating no
second record and attempting no upload: the duplicate check runs before any
upload or create. -/
theorem register_duplicate_email_conflict (body : RegisterBody)
    (file : Option Buffer) (u : User) (ms : MediaStore) (createOk : Bool)
    (newId now : Nat) (generateToken : Nat → String)
    (hn : truthy body.name = true) (he : truthy body.email = true)
    (hp : truthy body.password = true) :
    register body file (some u) ms createOk newId now generateToken =
      { resp := .error 400 "User already exists"
        calls := []
        created := none } := by
  simp [register, hn, he, hp]

/-- C7 witness: the theorem at concrete inputs. -/
theorem register_duplicate_email_conflict_witness :
    register ⟨some "Dan", some "alice@example.com", some "pw", none⟩ none
        (some sampleUser) msOk true 4 0 (fun _ => "tok") =
      { resp := .error 400 "User already exists"
        calls := []
        created := none } :=
  register_duplicate_email_conflict ⟨some "Dan", some "alice@example.com",
    some "pw", none⟩ none sampleUser msOk true 4 0 (fun _ => "tok")
    (by decide) (by decide) (by decide)

/-- C8: with both fields present, an unknown email and a wrong password each
produce the same 401 response with the same generic message, so the response
does not reveal whether the email existed. -/
theorem login_invalid_credentials_uniform (body : LoginBody) (u : User)
    (matchPassword : User → String → Bool) (generateToken : Nat → String)
    (he : truthy body.email = true) (hp : truthy body.password = true)
    (hw : matchPassword u (body.password.getD "") = false) :
    login body none matchPassword generateToken =
      .error 401 "Invalid email or password" ∧
    login body (some u) matchPassword generateToken =
      .error 401 "Invalid email or password" := by
  constructor <;> simp [login, he, hp, hw]

/-- C8 witness: the theorem at concrete inputs. -/
theorem login_invalid_credentials_uniform_witness :
    login ⟨some "eve@example.com", some "pw"⟩ none (fun _ _ => false)
        (fun _ => "tok") = .error 401 "Invalid email or password" ∧
    login ⟨some "eve@example.com", some "pw"⟩ (some sampleUser)
        (fun _ _ => false) (fun _ => "tok") =
      .error 401 "Invalid email or password" :=
  login_invalid_credentials_uniform ⟨some "eve@example.com", some "pw"⟩
    sampleUser (fun _ _ => false) (fun _ => "tok") (by decide) (by decide) rfl

/-- C9: no success payload of `getMe` or `updateProfile` contains a
"password" key, whatever record was loaded. -/
theorem profile_views_exclude_password (found fd : Option User)
    (body : UpdateBody) (file : Option Buffer) (ms : MediaStore) :
    ((getMe found).dataKeys).contains "password" = false ∧
    (((updateProfile fd body file ms).resp).dataKeys).contains "password"
      = false := by
  constructor
  · cases found <;> simp [getMe, ApiResp.dataKeys]
  · cases fd with
    | none => simp [updateProfile, ApiResp.dataKeys]
    | some user =>
      cases file with
      | none =>
        simp [updateProfile, ApiResp.dataKeys, updateView]
      | some f =>
        cases hu : ms.uploadResult f "avatars" <;>
          simp [updateProfile, hu, ApiResp.dataKeys, updateView]

/-- C10: when the authenticated id matches no stored user, `getMe` neither
succeeds nor sends any `ApiResponse.error` (in particular not the 404 that
`updateProfile` sends in the same situation): the null dereference is
forwarded to the centralized error handler via `next`, while `updateProfile`
with the same missing user responds 404. -/
theorem getMe_missing_user_forwarded (body : UpdateBody) (file : Option Buffer)
    (ms : MediaStore) :
    (getMe none).isSuccess = false ∧
    (getMe none).isApiError = false ∧
    (getMe none).isNextError = true ∧
    (updateProfile none body file ms).resp = .error 404 "User not found" :=
  ⟨rfl, rfl, rfl, rfl⟩

end AuthController
